import Mathlib

/-!
# Verification of the ilp-commander decision core (`states/auto.py`)

Shallow embedding of the heat-pump decision core. Conventions:

* Python `Decimal` values are embedded as `ℚ` (exact base-10 arithmetic,
  matching the source's exact decimal semantics).
* `arrow` timestamps and `time.time()` instants are embedded as `ℚ`
  epoch seconds; a shift of `m` minutes (`ts.shift(minutes=m)`) is
  `ts + 60 * m`, a shift of `h` hours is `ts + 3600 * h`.
* `None` becomes `Option.none`; Python exceptions that can escape the
  functions modelled here become `Except PyError`.
* The few wall-clock reads inside one call (`time.time()` called more
  than once in `Controller.update` / `Controller._update_past_errors`)
  are collapsed into one explicit `now : ℚ` parameter.
-/

namespace IlpCommander

/-- Python exceptions that can escape the embedded functions. -/
inductive PyError where
  | typeError
  | statisticsError
  | zeroDivisionError
deriving DecidableEq, Repr

/-- `TempTs` named tuple from poller_helpers: a temperature with its timestamp.
As a Python named tuple it is always truthy. -/
structure TempTs where
  temp : ℚ
  ts : ℚ
deriving DecidableEq, Repr, Inhabited

/-- `Forecast` named tuple from poller_helpers: hourly forecast points plus the
retrieval timestamp. -/
structure Forecast where
  temps : List TempTs
  ts : ℚ
deriving DecidableEq, Repr

/-! ## get_error (auto.py lines 590-597) -/

/-- `get_error(target_inside_temp, inside_temp, hyst)`: raw error
`target - measured`, then the positive part of the band is removed:
`error -= max(min(error, 0), -hyst)`. `None` inside temperature gives `None`. -/
def get_error (target_inside_temp : ℚ) (inside_temp : Option ℚ) (hyst : ℚ) : Option ℚ :=
  match inside_temp with
  | some t =>
    let error := target_inside_temp - t
    some (error - max (min error 0) (-hyst))
  | none => none

/-! ## Controller (auto.py lines 600-713) -/

/-- Mutable state of `Controller`. `current_time = none` is the reset state. -/
structure Controller where
  kp : ℚ
  ki : ℚ
  kd : ℚ
  i_high_limit : ℚ
  i_low_limit : ℚ
  integral : ℚ
  current_time : Option ℚ
  past_errors : List (ℚ × ℚ)
deriving DecidableEq, Repr

/-- `Controller._update_past_errors`: append `(now, error)` and prune entries
older than 3 hours. -/
def Controller.updatePastErrors (c : Controller) (now : ℚ) (error : ℚ) : Controller :=
  let pe := c.past_errors ++ [(now, error)]
  let past_error_time_limit := now - 3600 * 3
  { c with past_errors := pe.filter (fun p => past_error_time_limit ≤ p.1) }

/-- `Controller._past_error_slope_per_second`: least-squares slope of the
recorded `(time, error)` samples; `0` when the sample span is under 30 minutes
or the regression denominator is zero. -/
def Controller.pastErrorSlopePerSecond (c : Controller) : ℚ :=
  let pe := c.past_errors
  if pe ≠ [] ∧ (pe.getLastD (0, 0)).1 - (pe.headD (0, 0)).1 < 60 * 30 then 0
  else
    let n : ℚ := pe.length
    let sum_xy := (pe.map (fun p => p.1 * p.2)).sum
    let sum_x := (pe.map (fun p => p.1)).sum
    let sum_y := (pe.map (fun p => p.2)).sum
    let sum_x2 := (pe.map (fun p => p.1 * p.1)).sum
    let divider := n * sum_x2 - sum_x * sum_x
    if divider = 0 then 0 else (n * sum_xy - sum_x * sum_y) / divider

/-- First stage of `Controller.update`: when `error` is present, record
`error_without_hysteresis` as a trend sample (the source passes it to
`_update_past_errors`). -/
def Controller.recordError (c : Controller) (now : ℚ) (error ewh : Option ℚ) : Controller :=
  match error with
  | none => c
  | some _ => c.updatePastErrors now (ewh.getD 0)

/-- Integral accumulation stage of `Controller.update`: when a previous update
time exists, add `ki * error * delta_time` exactly when
`error > 0 and error_slope_per_hour >= -0.05 or error < 0 and error_slope_per_hour <= 0`. -/
def Controller.accumIntegral (c : Controller) (now err slopeHour : ℚ) : Controller :=
  match c.current_time with
  | none => c
  | some t =>
    let delta_time := now - t
    if (err > 0 ∧ slopeHour ≥ -(1/20)) ∨ (err < 0 ∧ slopeHour ≤ 0) then
      { c with integral := c.integral + c.ki * err * delta_time }
    else c

/-- Clamp a value to `[lo, hi]` the way `Controller.update` does:
first the high test, then the low test. -/
def clampQ (lo hi x : ℚ) : ℚ :=
  if x > hi then hi else if x < lo then lo else x

/-- Final clamping stage of `Controller.update`. -/
def Controller.clampIntegral (c : Controller) : Controller :=
  { c with integral := clampQ c.i_low_limit c.i_high_limit c.integral }

/-- The value of `self.integral` in `Controller.update` after the accumulation
step but before the clamping step. -/
def Controller.preClampIntegral (c : Controller) (now : ℚ) (error ewh : Option ℚ) : ℚ :=
  let c1 := c.recordError now error ewh
  let slopeHour := c1.pastErrorSlopePerSecond * 3600
  (c1.accumIntegral now (error.getD 0) slopeHour).integral

/-- `Controller.update(error, error_without_hysteresis)` (auto.py lines
661-708): returns the updated state and the controller output
`p_term + i_term + d_term`. -/
def Controller.update (c : Controller) (now : ℚ) (error ewh : Option ℚ) :
    Controller × ℚ :=
  let err := error.getD 0
  let c1 := c.recordError now error ewh
  let p_term := c.kp * err
  let error_slope_per_second := c1.pastErrorSlopePerSecond
  let slopeHour := error_slope_per_second * 3600
  let c2 := c1.accumIntegral now err slopeHour
  let c3 := { c2 with current_time := some now }
  let c4 := c3.clampIntegral
  let i_term := c4.integral
  let d_term := c.kd * error_slope_per_second
  (c4, p_term + i_term + d_term)

/-! ## RequestCache and the caching decorator (auto.py lines 26-82) -/

/-- The two staleness channels of `RequestCache.get`. -/
inductive Channel where
  | ok
  | failed
deriving DecidableEq, Repr

/-- One `RequestCache` entry: `(stale_after_if_ok, stale_after_if_failed, content)`.
The content is the `(value, timestamp)` pair produced by the wrapped function
(`value` is itself optional: the source stores whatever pair it got). -/
structure CacheEntry where
  staleOk : ℚ
  staleFailed : ℚ
  content : Option ℚ × Option ℚ
deriving DecidableEq, Repr

/-- `RequestCache.get(name, stale_check)`: return the content while `now` is at
or before the channel's stale-after instant, else nothing.  The entry for one
cache name is modelled directly (the dict is keyed by name; distinct names
never interact). -/
def cacheGet (now : ℚ) (entry : Option CacheEntry) (ch : Channel) :
    Option (Option ℚ × Option ℚ) :=
  match entry with
  | none => none
  | some e =>
    match ch with
    | .ok => if now ≤ e.staleOk then some e.content else none
    | .failed => if now ≤ e.staleFailed then some e.content else none

/-- The body of `caching(cache_name)`'s wrapper for one call.  `ifOk`/`ifFailed`
are `config.CACHE_TIMES[name]['if_ok'/'if_failed']` in minutes when configured
(defaults 60 and 120).  `fres` is the outcome of calling the wrapped function:
`none` when it raised (the wrapper catches the exception and sets
`result = None`), otherwise the returned `(value, timestamp)` pair.  Returns
the new cache entry and the wrapper's return value.  Note the store test in the
source is `if result and result[1] is not None`: a returned pair is a non-empty
tuple, hence always truthy, so only the timestamp component is checked. -/
def cachingWrap (ifOk ifFailed : Option ℚ) (now : ℚ) (entry : Option CacheEntry)
    (fres : Option (Option ℚ × Option ℚ)) :
    Option CacheEntry × Option (Option ℚ × Option ℚ) :=
  match cacheGet now entry .ok with
  | some content => (entry, some content)
  | none =>
    match fres with
    | some (v, some ts) =>
      let e : CacheEntry :=
        { staleOk := ts + 60 * ifOk.getD 60
          staleFailed := ts + 60 * ifFailed.getD 120
          content := (v, some ts) }
      (some e, some (v, some ts))
    | _ => (entry, cacheGet now entry .failed)

/-! ## Multi-source fusion: get_temp (auto.py lines 335-358) -/

/-- Insert a pair into a list kept sorted by value (first component). -/
def insertByValue (x : ℚ × Option ℚ) : List (ℚ × Option ℚ) → List (ℚ × Option ℚ)
  | [] => [x]
  | y :: ys => if x.1 ≤ y.1 then x :: y :: ys else y :: insertByValue x ys

/-- Sort readings by value. -/
def sortByValue (l : List (ℚ × Option ℚ)) : List (ℚ × Option ℚ) :=
  l.foldr insertByValue []

/-- Modelled from the spec: `median` from poller_helpers is not under `src/`.
Per the spec, the fused result is the median of the readings by value — the
middle element for an odd count, and for an even count the mean of the two
central values with their timestamps averaged; `(none, none)` when the list is
empty.  (When averaging, a missing timestamp on either central reading yields a
missing fused timestamp.) -/
def medianPairs (l : List (ℚ × Option ℚ)) : Option ℚ × Option ℚ :=
  let s := sortByValue l
  let n := s.length
  if n = 0 then (none, none)
  else if n % 2 = 1 then
    let m := s.getD (n / 2) (0, none)
    (some m.1, m.2)
  else
    let a := s.getD (n / 2 - 1) (0, none)
    let b := s.getD (n / 2) (0, none)
    let ts := match a.2, b.2 with
      | some t1, some t2 => some ((t1 + t2) / 2)
      | _, _ => none
    (some ((a.1 + b.1) / 2), ts)

/-- The accumulation loop of `get_temp`: each source outcome is `none` when the
source returned `None`, else the returned `(temp, ts)` pair.  A reading with a
present value is appended when its timestamp is absent, or when
`abs(now - ts) < 60 * max_ts_diff` seconds. -/
def getTempLoop (now max_ts_diff : ℚ) :
    List (Option (Option ℚ × Option ℚ)) → List (ℚ × Option ℚ) → List (ℚ × Option ℚ)
  | [], acc => acc
  | r :: rs, acc =>
    let acc' := match r with
      | none => acc
      | some (temp?, ts?) =>
        match temp? with
        | none => acc
        | some temp =>
          match ts? with
          | none => acc ++ [(temp, none)]
          | some ts =>
            if |now - ts| < 60 * max_ts_diff then acc ++ [(temp, some ts)] else acc
    getTempLoop now max_ts_diff rs acc'

/-- `get_temp(functions, max_ts_diff)`: the source functions are external; the
embedding receives their outcomes.  `max_ts_diff = none` selects the default
of 60 minutes. -/
def get_temp (now : ℚ) (max_ts_diff : Option ℚ)
    (results : List (Option (Option ℚ × Option ℚ))) : Option ℚ × Option ℚ :=
  medianPairs (getTempLoop now (max_ts_diff.getD 60) results [])

/-- The fuser acceptance rule as the claim states it: a reading with a present
value is accepted unconditionally when its timestamp is absent, and exactly
when `|now - timestamp|` is strictly less than `max_ts_diff` minutes when the
timestamp is present. -/
def acceptSpec (now max_ts_diff : ℚ) (r : Option (Option ℚ × Option ℚ)) :
    Option (ℚ × Option ℚ) :=
  match r with
  | some (some v, none) => some (v, none)
  | some (some v, some t) => if |now - t| < max_ts_diff * 60 then some (v, some t) else none
  | _ => none

/-! ## Forecast mean and the cooling-time buffer (auto.py lines 321-325, 471-484) -/

/-- `statistics.mean` on a list of rationals; junk value `0` on the empty list
(the real `mean` raises `StatisticsError` there — every caller below guards
that case explicitly). -/
def listMean (l : List ℚ) : ℚ := l.sum / l.length

/-- Python `int(...)` on a Decimal / rational: truncation toward zero. -/
def ratTrunc (q : ℚ) : ℤ := q.num.tdiv q.den

/-- Python slicing `l[:k]` for an integer `k` that may be negative:
`k ≥ 0` takes the first `k` elements, `k < 0` drops the last `-k`. -/
def pySlice (k : ℤ) (l : List α) : List α :=
  if 0 ≤ k then l.take k.toNat else l.take (l.length + k).toNat

/-- `forecast_mean_temperature(forecast, hours)`: mean of the first
`int(hours)` forecast temperatures, absent when the forecast is absent or has
no points.  (`forecast` is a named tuple, so its truthiness test is just
"not None".) -/
def forecast_mean_temperature (forecast : Option Forecast) (hours : ℚ) : Option ℚ :=
  match forecast with
  | some f =>
    if f.temps.isEmpty then none
    else some (listMean ((pySlice (ratTrunc hours) f.temps).map TempTs.temp))
  | none => none

/-- Whether `forecast_mean_temperature` would raise `StatisticsError`: the
forecast has points but the slice `temps[:int(hours)]` is empty. -/
def forecastMeanRaises (forecast : Option Forecast) (hours : ℚ) : Bool :=
  match forecast with
  | some f => !f.temps.isEmpty && (pySlice (ratTrunc hours) f.temps).isEmpty
  | none => false

/-- One pass of the `for i in range(3)` loop in `cooling_time_buffer_resolved`:
recompute the forecast mean over the current buffer length (falling back to
the outside temperature when absent) and feed it to the configured buffer
function. -/
def ctbStep (f : ℚ → ℚ) (outside_temp : ℚ) (forecast : Option Forecast) (buffer : ℚ) :
    Except PyError ℚ :=
  if forecastMeanRaises forecast buffer then .error .statisticsError
  else .ok (f ((forecast_mean_temperature forecast buffer).getD outside_temp))

/-- The `range(3)` loop, one recursion step per pass. -/
def ctbLoop (f : ℚ → ℚ) (outside_temp : ℚ) (forecast : Option Forecast) :
    ℕ → ℚ → Except PyError ℚ
  | 0, buffer => .ok buffer
  | n + 1, buffer =>
    (ctbStep f outside_temp forecast buffer).bind (ctbLoop f outside_temp forecast n)

/-- `cooling_time_buffer_resolved(cooling_time_buffer, outside_temp, forecast)`:
`config.COOLING_TIME_BUFFER` is either a numeric constant (the `try` branch
converts it with `Decimal`) or a function of the forecast-mean temperature, in
which case the buffer starts at 20 hours and the loop body runs three times. -/
def cooling_time_buffer_resolved (cooling_time_buffer : ℚ ⊕ (ℚ → ℚ))
    (outside_temp : ℚ) (forecast : Option Forecast) : Except PyError ℚ :=
  match cooling_time_buffer with
  | .inl c => .ok c
  | .inr f => ctbLoop f outside_temp forecast 3 20

/-! ## Cooling-buffer simulator: target_inside_temperature (auto.py lines 361-468) -/

/-- Body of the `valid_forecast` construction loop: append a forecast point
only when its timestamp is strictly after the last collected one.  The
accumulator always starts non-empty (`[outside_temp_ts]`), so the default of
`getLastD` is never used. -/
def appendIfLater (acc : List TempTs) (f : TempTs) : List TempTs :=
  if (acc.getLastD default).ts < f.ts then acc ++ [f] else acc

/-- The pre-forecast `while iteration_ts > reversed_forecast[0].ts` loop,
stepping backward in at-most-one-hour increments with the constant
`outside_after_forecast` temperature.  State is
`(iteration_inside_temp, iteration_ts)`.  The fuel argument makes the
recursion structural; `preLoop_exit` below shows the fuel chosen by
`target_inside_temperature` always suffices, so the guard is false when the
fuel runs out and the fuelled loop equals the source's while loop. -/
def preLoop (rate allowed_min outside_after rf0ts : ℚ) :
    ℕ → ℚ × ℚ → ℚ × ℚ
  | 0, s => s
  | fuel + 1, (inside, it) =>
    if rf0ts < it then
      let hours_to_forecast_start := (it - rf0ts) / 3600
      let this_iteration_hours := min 1 hours_to_forecast_start
      let outside_inside_diff := outside_after - inside
      let drop0 := rate * outside_inside_diff * this_iteration_hours
      let temp_drop := if outside_after ≤ -17 then drop0 * 2 else drop0
      let inside' := inside - temp_drop
      let it' := it - 3600 * this_iteration_hours
      let inside'' := if inside' < allowed_min then allowed_min else inside'
      preLoop rate allowed_min outside_after rf0ts fuel (inside'', it')
    else (inside, it)

/-- The forecast-phase loop: `for fc in filter(lambda x: x.ts <= iteration_ts,
reversed_forecast)`.  The Python filter is lazy, so each point is compared
against the *current* `iteration_ts`, which the body overwrites with `fc.ts`. -/
def forecastLoop (rate allowed_min : ℚ) : List TempTs → ℚ × ℚ → ℚ × ℚ
  | [], s => s
  | fc :: rest, (inside, it) =>
    if fc.ts ≤ it then
      let this_iteration_hours := (it - fc.ts) / 3600
      let outside_inside_diff := fc.temp - inside
      let drop0 := rate * outside_inside_diff * this_iteration_hours
      let temp_drop := if fc.temp ≤ -17 then drop0 * 2 else drop0
      let inside' := inside - temp_drop
      let inside'' := if inside' < allowed_min then allowed_min else inside'
      forecastLoop rate allowed_min rest (inside'', fc.ts)
    else forecastLoop rate allowed_min rest (inside, it)

/-- `target_inside_temperature(add_extra_info, outside_temp_ts,
allowed_min_inside_temp, minimum_inside_temp, forecast, cooling_time_buffer)`.
`rate` is `config.COOLING_RATE_PER_HOUR_PER_TEMPERATURE_DIFF`; the
`add_extra_info` logging callback is elided.  Errors only arise from
`cooling_time_buffer_resolved` (the two asserts in the source cannot fire:
both loops compute their step length under a guard that makes it
non-negative). -/
def target_inside_temperature (now rate : ℚ) (outside_temp_ts : TempTs)
    (allowed_min_inside_temp minimum_inside_temp : ℚ) (forecast : Option Forecast)
    (cooling_time_buffer : ℚ ⊕ (ℚ → ℚ)) : Except PyError ℚ :=
  (cooling_time_buffer_resolved cooling_time_buffer outside_temp_ts.temp forecast).map
    fun cooling_time_buffer_hours =>
      let fc_temps := match forecast with
        | some f => f.temps
        | none => []
      let valid_forecast := fc_temps.foldl appendIfLater [outside_temp_ts]
      let reversed_forecast := valid_forecast.reverse
      let rf0ts := (reversed_forecast.headD default).ts
      let outside_after_forecast := listMean (reversed_forecast.map TempTs.temp)
      let it0 := now + 3600 * cooling_time_buffer_hours
      let fuel := Nat.ceil ((it0 - rf0ts) / 3600)
      let s1 := preLoop rate allowed_min_inside_temp outside_after_forecast rf0ts fuel
        (allowed_min_inside_temp, it0)
      let s2 := forecastLoop rate allowed_min_inside_temp reversed_forecast s1
      max s2.1 minimum_inside_temp

/-- `hysteresis()` (auto.py lines 487-488). -/
def hysteresis : ℚ := 1 / 2

/-! ## Commands and the decision combiner (auto.py lines 535-559) -/

/-- Modelled from the spec: the `Commands` enumeration from poller_helpers is
not under `src/`.  Per the spec it is a totally ordered set of discrete
heating-power levels with `off` as the minimum; the source's tests show `off`
and `heat8 < heat20` exist, and auto.py's comment pins the controller mapping's
range to rated outputs 8..18.  A representative ladder is used. -/
inductive Command where
  | off
  | heat8
  | heat10
  | heat16
  | heat18
  | heat20
deriving DecidableEq, Repr

/-- Heating-intensity rank, giving the total order of the enumeration. -/
def Command.rank : Command → ℕ
  | .off => 0
  | .heat8 => 1
  | .heat10 => 2
  | .heat16 => 3
  | .heat18 => 4
  | .heat20 => 5

/-- Python `max([a, b])`: keeps the later element only when strictly larger. -/
def cmdMax (a b : Command) : Command :=
  if a.rank < b.rank then b else a

/-- Modelled from the spec: `Commands.command_from_controller(x)` from
poller_helpers is not under `src/`.  Per the spec it returns the smallest
heating level whose rated output is at least `x`, clamped to the
enumeration's range; auto.py's comment pins its minimum and maximum rated
outputs to 8 and 18. -/
def commandFromController (x : ℚ) : Command :=
  if x ≤ 8 then .heat8
  else if x ≤ 10 then .heat10
  else if x ≤ 16 then .heat16
  else .heat18

/-- `temp_control_without_inside_temp(outside_temp, target_inside_temp)`:
quadratic heuristic on the absolute outside/target difference, clamped to
`[8, 24]`. -/
def temp_control_without_inside_temp (outside_temp target_inside_temp : ℚ) : ℚ :=
  let diff := |outside_temp - target_inside_temp|
  let control := 3 + diff * diff * (3/100) + diff * (2/10)
  max (min control 24) 8

/-- `get_next_command(valid_time, inside_temp, outside_temp, valid_outside,
target_inside_temp, target_from_controller)`.  `month` stands for
`arrow.now().month`. -/
def get_next_command (valid_time : Bool) (month : ℕ) (inside_temp : Option ℚ)
    (outside_temp : ℚ) (valid_outside : Bool) (target_inside_temp : ℚ)
    (target_from_controller : ℚ) : Command :=
  match inside_temp with
  | some _ => commandFromController target_from_controller
  | none =>
    let is_summer := valid_time ∧ 5 ≤ month ∧ month ≤ 9
    if (valid_outside ∧ outside_temp < target_inside_temp) ∨ (¬valid_outside ∧ ¬is_summer) then
      commandFromController (temp_control_without_inside_temp outside_temp target_inside_temp)
    else .off

/-- `estimate_temperature_with_rh(dew_point, rh)` (auto.py lines 716-720).
`rh_log` stands for `Decimal(math.log(rh))` — the one float operation in the
source; its exact value is a platform double, so the embedding takes it as a
parameter.  Python raises `ZeroDivisionError` when either denominator is
zero. -/
def estimate_temperature_with_rh (dew_point rh_log : ℚ) : Except PyError ℚ :=
  let a : ℚ := 24304 / 100
  let b : ℚ := 17625 / 1000
  if a + dew_point = 0 then .error .zeroDivisionError
  else
    let q := (b * dew_point) / (a + dew_point)
    if b + rh_log - q = 0 then .error .zeroDivisionError
    else .ok (a * (q - rh_log) / (b + rh_log - q))

/-! ## Status classification (auto.py lines 562-587) -/

/-- `log_status`: builds the comma-separated status classification.  The
`add_extra_info` callback only logs; the returned string is modelled. -/
def log_status (valid_time : Bool) (forecast : Option Forecast) (valid_outside : Bool)
    (inside_temp : Option ℚ) (target_inside_temp : ℚ) (controller_i_max : Bool) : String :=
  let s1 : List String := if valid_time then [] else ["no valid time"]
  let s2 := s1 ++ (if forecast.isSome then [] else ["no forecast"])
  let s3 := s2 ++ (if valid_outside then [] else ["no outside temp"])
  let s4 := s3 ++ (match inside_temp with
    | none => ["no inside temp"]
    | some t =>
      if t ≤ target_inside_temp - 1 then ["inside is 1 degree or more below target"] else [])
  let s5 := s4 ++ (if controller_i_max then ["controller i term at max"] else [])
  let status := if s5 = [] then ["ok"] else s5
  String.intercalate ", " status

/-! ## Auto.process (auto.py lines 723-889)

The adapter fetches are external I/O; the embedding receives the outcomes of
the three `get_temp` fusions the cycle performs (forecast, outside, inside)
and of `get_dew_point`, and models everything downstream of them. -/

/-- `config` constants used by the cycle. -/
structure AutoConfig where
  /-- `config.ALLOWED_MINIMUM_INSIDE_TEMP`. -/
  allowed_minimum_inside_temp : ℚ
  /-- `config.COOLING_TIME_BUFFER`: a numeric constant or a function of the
  forecast-mean temperature. -/
  cooling_time_buffer : ℚ ⊕ (ℚ → ℚ)
  /-- `config.COOLING_RATE_PER_HOUR_PER_TEMPERATURE_DIFF`. -/
  cooling_rate : ℚ

/-- The readings one cycle works from.  `fTemps`/`fTs` is the fused forecast
returned by `get_temp([receive_fmi_forecast, receive_yr_no_forecast])`;
`outsideFused` the fused outside reading (the three outside adapters return a
timestamp with every value, so a present value carries its timestamp);
`dewPoint` the dew-point value of `get_dew_point`; `insideTemp` the fused
inside temperature.  `rhLog80`/`rhLog70` stand for `Decimal(math.log(0.8))`
and `Decimal(math.log(0.7))`. -/
structure ProcessEnv where
  now : ℚ
  validTime : Bool
  month : ℕ
  fTemps : Option (List TempTs)
  fTs : Option ℚ
  outsideFused : Option (ℚ × ℚ)
  dewPoint : Option ℚ
  insideTemp : Option ℚ
  rhLog80 : ℚ
  rhLog70 : ℚ

/-- The process-wide `Auto` state a cycle reads. -/
structure AutoState where
  controller : Controller
  lastCommand : Option Command
  heatingStartTime : ℚ
  lastStatusEmailSent : Option String

/-- `make_forecast(temps, ts, valid_time)`: keep only forward-looking points
when the wall clock is trusted. -/
def make_forecast (temps : List TempTs) (ts : ℚ) (valid_time : Bool) (now : ℚ) : Forecast :=
  { temps := temps.filter (fun t => ¬valid_time ∨ now < t.ts), ts := ts }

/-- The forecast built by `get_forecast`: present exactly when the fused
forecast list is truthy (non-empty) and its timestamp is present. -/
def processForecast (env : ProcessEnv) : Option Forecast :=
  match env.fTemps, env.fTs with
  | some l, some t => if l.isEmpty then none else some (make_forecast l t env.validTime env.now)
  | _, _ => none

/-- `mean_forecast` as computed by `get_forecast` (24-hour mean). -/
def processMeanForecast (env : ProcessEnv) : Option ℚ :=
  forecast_mean_temperature (processForecast env) 24

/-- `PREDEFINED_OUTSIDE_TEMP` (auto.py line 23). -/
def PREDEFINED_OUTSIDE_TEMP : ℚ := -10

/-- `get_outside(add_extra_info, mean_forecast)`: the fused outside reading,
or — when absent — the forecast mean stamped `now`, or the predefined
constant; the boolean is `valid_outside`. -/
def get_outside_model (env : ProcessEnv) (mean_forecast : Option ℚ) : TempTs × Bool :=
  match env.outsideFused with
  | some (t, ts) => ({ temp := t, ts := ts }, true)
  | none =>
    match mean_forecast with
    | some m => ({ temp := m, ts := env.now }, false)
    | none => ({ temp := PREDEFINED_OUTSIDE_TEMP, ts := env.now }, false)

/-- `outside_temp_ts` of the cycle. -/
def processOutsideTempTs (env : ProcessEnv) : TempTs :=
  (get_outside_model env (processMeanForecast env)).1

/-- `valid_outside` of the cycle. -/
def processValidOutside (env : ProcessEnv) : Bool :=
  (get_outside_model env (processMeanForecast env)).2

/-- `outside_for_target_calc`: the truthiness test `if mean_forecast:` makes a
zero mean fall back to the measured outside reading. -/
def processOutsideForTarget (env : ProcessEnv) : TempTs :=
  match processMeanForecast env with
  | some m => if m = 0 then processOutsideTempTs env else { temp := m, ts := env.now }
  | none => processOutsideTempTs env

/-- The cycle's call of `target_inside_temperature`. -/
def processTarget (cfg : AutoConfig) (env : ProcessEnv) (minimum_inside_temp : ℚ) :
    Except PyError ℚ :=
  target_inside_temperature env.now cfg.cooling_rate (processOutsideForTarget env)
    cfg.allowed_minimum_inside_temp minimum_inside_temp (processForecast env)
    cfg.cooling_time_buffer

/-- The target actually used for error computation: when a dew-point reading
is available the simulator target is raised to at least the ambient
temperature at which that dew point gives 80% relative humidity. -/
def processTargetWithDew (cfg : AutoConfig) (env : ProcessEnv) (minimum_inside_temp : ℚ) :
    Except PyError ℚ :=
  (processTarget cfg env minimum_inside_temp).bind fun t0 =>
    match env.dewPoint with
    | some dp => (estimate_temperature_with_rh dp env.rhLog80).map fun e => max t0 e
    | none => .ok t0

/-- What one invocation of `Auto.process` returns and mutates. -/
structure ProcessOut where
  cmd : Command
  target : ℚ
  controller : Controller
  controllerOutput : ℚ
  status : String
  lastStatusEmailSent : Option String
deriving DecidableEq, Repr

/-- The rest of `Auto.process` after the target temperature is settled:
error construction, controller limits and update, next-command selection, the
freeze-protection override (auto.py lines 869-875; note it reads
`dew_point.temp` without a `None` check) and the status classification. -/
def processAfterTarget (env : ProcessEnv) (st : AutoState) (target1 : ℚ) :
    Except PyError ProcessOut :=
  let forecast := processForecast env
  let outside_temp_ts := processOutsideTempTs env
  let valid_outside := processValidOutside env
  let inside_temp := env.insideTemp
  let error := get_error target1 inside_temp hysteresis
  let error_without_hysteresis := get_error target1 inside_temp 0
  let degrees_per_hour_slope := (1/10 : ℚ) / 3600
  let lowest_heating_value : ℚ := 8 - 1/100
  let highest_heating_value : ℚ := 18 + 1/100
  let c0 := { st.controller with
    i_low_limit := lowest_heating_value - degrees_per_hour_slope * st.controller.kd
    i_high_limit := highest_heating_value + degrees_per_hour_slope * st.controller.kd }
  let upd : Controller × ℚ := c0.update env.now error error_without_hysteresis
  let c1 : Controller := upd.1
  let controller_output : ℚ := upd.2
  let next_command0 := get_next_command env.validTime env.month inside_temp
    outside_temp_ts.temp valid_outside target1 controller_output
  let frozen : Except PyError Command :=
    if valid_outside ∧ st.lastCommand.isSome then
      if outside_temp_ts.temp < 1 then
        match env.dewPoint with
        | none => .error .typeError
        | some dp =>
          (estimate_temperature_with_rh dp env.rhLog70).map fun temp_with_70_rh =>
            if outside_temp_ts.temp < temp_with_70_rh ∧ st.lastCommand ≠ some .off then
              cmdMax .heat8 next_command0
            else next_command0
      else .ok next_command0
    else .ok next_command0
  frozen.map fun next_command =>
    let status := log_status env.validTime forecast valid_outside inside_temp target1
      (if c1.i_high_limit ≤ c1.integral then true else false)
    { cmd := next_command
      target := target1
      controller := c1
      controllerOutput := controller_output
      status := status
      lastStatusEmailSent := some status }

/-- `Auto.process(minimum_inside_temp)`: the whole cycle, from the fused
readings to the chosen command and status. -/
def Auto.process (cfg : AutoConfig) (env : ProcessEnv) (st : AutoState)
    (minimum_inside_temp : ℚ) : Except PyError ProcessOut :=
  (processTargetWithDew cfg env minimum_inside_temp).bind (processAfterTarget env st)

/-! ## Auto.run command gating (auto.py lines 780-797) -/

/-- The send/suppress decision of `Auto.run` once `process` has produced
`next_command`: returns whether `send_ir_signal` is invoked, the new
`Auto.last_command`, and the new `Auto.heating_start_time`. -/
def runDecision (last_command : Option Command) (next_command : Command)
    (now heating_start_time : ℚ) : Bool × Option Command × ℚ :=
  let seconds_since_heating_start := now - heating_start_time
  let min_time_heating : ℚ := 60 * 60 * 3
  if last_command = none ∨
      (some next_command ≠ last_command ∧
        (next_command ≠ .off ∨
          (next_command = .off ∧ seconds_since_heating_start > min_time_heating))) then
    let hs :=
      if (last_command = none ∨ last_command = some .off) ∧ next_command ≠ .off then now
      else heating_start_time
    (true, some next_command, hs)
  else (false, last_command, heating_start_time)

/-! ## Concrete sample inputs used to instantiate the theorems -/

/-- A configuration with a constant zero-hour cooling buffer. -/
def sampleConfig : AutoConfig :=
  { allowed_minimum_inside_temp := 5, cooling_time_buffer := .inl 0, cooling_rate := 1/2 }

/-- A freshly-reset controller with zero gains. -/
def sampleController : Controller := ⟨0, 0, 0, 0, 0, 0, none, []⟩

/-- Prior cycle state: the last sent command was `heat8`. -/
def sampleState : AutoState :=
  { controller := sampleController, lastCommand := some .heat8, heatingStartTime := 0,
    lastStatusEmailSent := none }

/-- A cycle with outside 5°C, inside 20°C, a dew-point reading of 0°C and no
forecast. -/
def sampleEnvDew : ProcessEnv :=
  { now := 0, validTime := true, month := 1, fTemps := none, fTs := none,
    outsideFused := some (5, 0), dewPoint := some 0, insideTemp := some 20,
    rhLog80 := -1, rhLog70 := -1 }

/-- The same cycle with the dew-point reading absent and outside 0°C. -/
def sampleEnvNoDew : ProcessEnv :=
  { sampleEnvDew with dewPoint := none, outsideFused := some (0, 0) }

/-- What `Auto.process` produces on `sampleEnvDew` (`target` is the 80%-RH
bound `6944/475 ≈ 14.62`, above the simulator's 10). -/
def sampleOut : ProcessOut :=
  { cmd := .heat8, target := 6944/475,
    controller := ⟨0, 0, 0, 1801/100, 799/100, 799/100, some 0, [(0, -2556/475)]⟩,
    controllerOutput := 799/100, status := "no forecast",
    lastStatusEmailSent := some "no forecast" }

/-! ## Helper lemmas -/

/-- `clampQ` lands in `[lo, hi]` whenever `lo ≤ hi`. -/
theorem clampQ_mem (lo hi x : ℚ) (h : lo ≤ hi) :
    lo ≤ clampQ lo hi x ∧ clampQ lo hi x ≤ hi := by
  unfold clampQ
  split_ifs <;> constructor <;> linarith

/-- `recordError` changes only `past_errors`. -/
theorem Controller.recordError_fields (c : Controller) (now : ℚ) (error ewh : Option ℚ) :
    (c.recordError now error ewh).i_low_limit = c.i_low_limit
    ∧ (c.recordError now error ewh).i_high_limit = c.i_high_limit
    ∧ (c.recordError now error ewh).integral = c.integral
    ∧ (c.recordError now error ewh).ki = c.ki
    ∧ (c.recordError now error ewh).current_time = c.current_time := by
  cases error <;> exact ⟨rfl, rfl, rfl, rfl, rfl⟩

/-- `accumIntegral` leaves the clamping limits alone. -/
theorem Controller.accumIntegral_fields (c : Controller) (now err s : ℚ) :
    (c.accumIntegral now err s).i_low_limit = c.i_low_limit
    ∧ (c.accumIntegral now err s).i_high_limit = c.i_high_limit := by
  unfold Controller.accumIntegral
  cases hc : c.current_time
  · exact ⟨rfl, rfl⟩
  · dsimp only
    split_ifs <;> exact ⟨rfl, rfl⟩

/-- `Controller.update` decomposed into its stages. -/
theorem Controller.update_fst (c : Controller) (now : ℚ) (error ewh : Option ℚ) :
    (c.update now error ewh).1 =
      Controller.clampIntegral
        { (c.recordError now error ewh).accumIntegral now (error.getD 0)
            ((c.recordError now error ewh).pastErrorSlopePerSecond * 3600) with
          current_time := some now } := rfl

/-! ## Claim theorems -/

/-- Claim C2: for every prior controller state with `i_low_limit ≤ i_high_limit`
and every call to `Controller.update` (any error, any wall-clock spacing), the
integral field immediately after the update lies within
`[i_low_limit, i_high_limit]`; since the update never touches the limits this
covers every sequence of updates. -/
theorem claim_C2_integral_clamped (c : Controller) (now : ℚ) (error ewh : Option ℚ)
    (h : c.i_low_limit ≤ c.i_high_limit) :
    ((c.update now error ewh).1).i_low_limit ≤ ((c.update now error ewh).1).integral
    ∧ ((c.update now error ewh).1).integral ≤ ((c.update now error ewh).1).i_high_limit := by
  rw [Controller.update_fst]
  simp only [Controller.clampIntegral]
  rw [(Controller.accumIntegral_fields _ _ _ _).1, (Controller.accumIntegral_fields _ _ _ _).2,
    (Controller.recordError_fields c now error ewh).1,
    (Controller.recordError_fields c now error ewh).2.1]
  exact clampQ_mem _ _ _ h

/-- Witness for C2 at a concrete controller whose integral starts far above the
limits. -/
theorem claim_C2_integral_clamped_witness :
    (((Controller.mk 1 1 1 5 2 100 none []).update 0 none none).1).i_low_limit
      ≤ (((Controller.mk 1 1 1 5 2 100 none []).update 0 none none).1).integral :=
  (claim_C2_integral_clamped (Controller.mk 1 1 1 5 2 100 none []) 0 none none (by norm_num)).1

/-- Claim C5: `get_error` returns
`(target - measured) - max(min(target - measured, 0), -h)`; a measured value at
most `h` above target gives zero error, more than `h` above gives the raw
negative error softened by `h`, and below target the raw positive error is
unchanged. -/
theorem claim_C5_get_error (target m h : ℚ) (hh : 0 ≤ h) :
    get_error target (some m) h = some ((target - m) - max (min (target - m) 0) (-h))
    ∧ (target ≤ m → m ≤ target + h → get_error target (some m) h = some 0)
    ∧ (target + h < m → get_error target (some m) h = some ((target - m) + h))
    ∧ (m < target → get_error target (some m) h = some (target - m)) := by
  refine ⟨rfl, ?_, ?_, ?_⟩
  · intro h1 h2
    simp only [get_error]
    rw [min_eq_left (by linarith), max_eq_left (by linarith), sub_self]
  · intro h1
    simp only [get_error]
    rw [min_eq_left (by linarith), max_eq_right (by linarith), sub_neg_eq_add]
  · intro h1
    simp only [get_error]
    rw [min_eq_right (by linarith), max_eq_left (by linarith), sub_zero]

/-- Witness for C5: a measured temperature 0.6°C above target with a 0.5°C
band yields error −0.1. -/
theorem claim_C5_get_error_witness : get_error 20 (some (103/5)) (1/2) = some (-(1/10)) := by
  have h := (claim_C5_get_error 20 (103/5) (1/2) (by norm_num)).2.2.1 (by norm_num)
  rw [h]
  norm_num

/-- Counterexample for C4 as stated: a first update after a reset
(`current_time = none`) with `i_low_limit = 5` does change the integral — the
accumulation step is skipped, but the clamp that follows raises the integral
from 0 to the low limit. -/
theorem claim_C4_counterexample :
    (((Controller.mk 1 1 0 10 5 0 none []).update 100 (some 1) (some 1)).1).integral
      ≠ (Controller.mk 1 1 0 10 5 0 none []).integral := by
  norm_num [Controller.update, Controller.recordError, Controller.updatePastErrors,
    Controller.pastErrorSlopePerSecond, Controller.accumIntegral, Controller.clampIntegral,
    clampQ]

/-- Claim C4 (amended): the update's integral is the clamp of its pre-clamp
value; when a previous update time exists and the error is present the
pre-clamp integral is incremented by `ki × error × delta_time` exactly when
`(error > 0 and slope ≥ -0.05/h) or (error < 0 and slope ≤ 0)` and is left
unchanged otherwise; the first call after a reset, and a call with an absent
error, leave it unchanged before clamping (the clamp may still move it). -/
theorem claim_C4_integral_gating (c : Controller) (now : ℚ) (error ewh : Option ℚ) :
    ((c.update now error ewh).1).integral
      = clampQ c.i_low_limit c.i_high_limit (c.preClampIntegral now error ewh)
    ∧ (∀ t e, c.current_time = some t → error = some e →
        c.preClampIntegral now error ewh =
          c.integral +
            (if (e > 0 ∧ (c.recordError now error ewh).pastErrorSlopePerSecond * 3600 ≥ -(1/20))
                ∨ (e < 0 ∧ (c.recordError now error ewh).pastErrorSlopePerSecond * 3600 ≤ 0)
              then c.ki * e * (now - t) else 0))
    ∧ (c.current_time = none → c.preClampIntegral now error ewh = c.integral)
    ∧ (error = none → c.preClampIntegral now error ewh = c.integral) := by
  refine ⟨?_, ?_, ?_, ?_⟩
  · rw [Controller.update_fst]
    simp only [Controller.clampIntegral]
    rw [(Controller.accumIntegral_fields _ _ _ _).1, (Controller.accumIntegral_fields _ _ _ _).2,
      (Controller.recordError_fields c now error ewh).1,
      (Controller.recordError_fields c now error ewh).2.1]
    rfl
  · intro t e hct herr
    subst herr
    have hct1 : (c.recordError now (some e) ewh).current_time = some t := by
      rw [(Controller.recordError_fields c now (some e) ewh).2.2.2.2, hct]
    unfold Controller.preClampIntegral Controller.accumIntegral
    simp only [hct1, Option.getD_some]
    split_ifs with hgate
    · dsimp only
      rw [(Controller.recordError_fields c now (some e) ewh).2.2.1,
        (Controller.recordError_fields c now (some e) ewh).2.2.2.1]
    · rw [(Controller.recordError_fields c now (some e) ewh).2.2.1, add_zero]
  · intro hct
    have hct1 : (c.recordError now error ewh).current_time = none := by
      rw [(Controller.recordError_fields c now error ewh).2.2.2.2, hct]
    unfold Controller.preClampIntegral Controller.accumIntegral
    simp only [hct1]
    exact (Controller.recordError_fields c now error ewh).2.2.1
  · intro herr
    subst herr
    unfold Controller.preClampIntegral Controller.accumIntegral
    cases hc : c.current_time
    case none =>
      have hct1 : (c.recordError now none ewh).current_time = none := by
        rw [(Controller.recordError_fields c now none ewh).2.2.2.2, hc]
      simp only [hct1]
      exact (Controller.recordError_fields c now none ewh).2.2.1
    case some tt =>
      have hct1 : (c.recordError now none ewh).current_time = some tt := by
        rw [(Controller.recordError_fields c now none ewh).2.2.2.2, hc]
      simp only [hct1, Option.getD_none]
      rw [if_neg]
      · exact (Controller.recordError_fields c now none ewh).2.2.1
      · rintro (⟨h0, _⟩ | ⟨h0, _⟩) <;> exact absurd h0 (lt_irrefl 0)

/-- Witness for C4 (amended): a controller with `current_time = some 50`,
`ki = 2`, `integral = 3`, empty history, updated at time 100 with error 1:
the slope is 0 so the gate passes and the pre-clamp integral is
`3 + 2·1·50 = 103`. -/
theorem claim_C4_integral_gating_witness :
    (Controller.mk 1 2 0 10 (-10) 3 (some 50) []).preClampIntegral 100 (some 1) (some 1)
      = 103 := by
  have h := (claim_C4_integral_gating (Controller.mk 1 2 0 10 (-10) 3 (some 50) [])
    100 (some 1) (some 1)).2.1 50 1 rfl rfl
  rw [h]
  norm_num [Controller.recordError, Controller.updatePastErrors,
    Controller.pastErrorSlopePerSecond]

/-- Binding an `Except` computation with `ok` is the identity. -/
theorem exceptBindOkId (x : Except PyError ℚ) : x.bind (fun b => Except.ok b) = x := by
  cases x <;> rfl

/-- One unfolding step of the `range(3)` loop. -/
theorem ctbLoop_succ (f : ℚ → ℚ) (o : ℚ) (fc : Option Forecast) (n : ℕ) (b : ℚ) :
    ctbLoop f o fc (n + 1) b =
      (ctbStep f o fc b).bind (fun b2 => ctbLoop f o fc n b2) := rfl

/-- Claim C8: `cooling_time_buffer_resolved` returns the configured constant
when the buffer is fixed, and otherwise applies the mean-then-buffer-function
step exactly three times starting from 20 hours, with no convergence test. -/
theorem claim_C8_buffer_resolution (const : ℚ) (f : ℚ → ℚ) (outside_temp : ℚ)
    (forecast : Option Forecast) :
    cooling_time_buffer_resolved (.inl const) outside_temp forecast = .ok const
    ∧ cooling_time_buffer_resolved (.inr f) outside_temp forecast =
        (ctbStep f outside_temp forecast 20).bind fun b1 =>
          (ctbStep f outside_temp forecast b1).bind fun b2 =>
            ctbStep f outside_temp forecast b2 := by
  refine ⟨rfl, ?_⟩
  show ctbLoop f outside_temp forecast 3 20 = _
  rw [ctbLoop_succ]
  cases h1 : ctbStep f outside_temp forecast 20 with
  | error e => rfl
  | ok b1 =>
    show ctbLoop f outside_temp forecast 2 b1 =
      (ctbStep f outside_temp forecast b1).bind fun b2 => ctbStep f outside_temp forecast b2
    rw [ctbLoop_succ]
    cases h2 : ctbStep f outside_temp forecast b1 with
    | error e => rfl
    | ok b2 =>
      show ctbLoop f outside_temp forecast 1 b2 = ctbStep f outside_temp forecast b2
      rw [ctbLoop_succ]
      exact exceptBindOkId _

/-- The `get_temp` accumulation loop is the filter the claim describes. -/
theorem getTempLoop_eq (now m : ℚ) (rs : List (Option (Option ℚ × Option ℚ))) :
    ∀ acc, getTempLoop now m rs acc = acc ++ rs.filterMap (acceptSpec now m) := by
  induction rs with
  | nil => intro acc; simp [getTempLoop]
  | cons r rs ih =>
    intro acc
    cases r with
    | none => simp [getTempLoop, List.filterMap_cons, acceptSpec, ih]
    | some p =>
      rcases p with ⟨temp?, ts?⟩
      cases temp? with
      | none => simp [getTempLoop, List.filterMap_cons, acceptSpec, ih]
      | some temp =>
        cases ts? with
        | none => simp [getTempLoop, List.filterMap_cons, acceptSpec, ih]
        | some ts =>
          simp only [getTempLoop]
          by_cases hlt : |now - ts| < 60 * m
          · rw [if_pos hlt, ih, List.filterMap_cons]
            have ha : acceptSpec now m (some (some temp, some ts)) = some (temp, some ts) := by
              simp only [acceptSpec]
              rw [if_pos (by rw [mul_comm]; exact hlt)]
            rw [ha, List.append_assoc]
            rfl
          · rw [if_neg hlt, ih, List.filterMap_cons]
            have ha : acceptSpec now m (some (some temp, some ts)) = none := by
              simp only [acceptSpec]
              rw [if_neg (by rw [mul_comm]; exact hlt)]
            rw [ha]

/-- Claim C7: `get_temp` fuses exactly the accepted readings — a reading with
a present value is accepted unconditionally when its timestamp is absent,
exactly when `|now − timestamp|` is under `max_ts_diff` minutes when present
(default 60 minutes), and is discarded otherwise; the fused value is the
median of the accepted readings. -/
theorem claim_C7_fuser_acceptance (now : ℚ) (max_ts_diff : Option ℚ)
    (results : List (Option (Option ℚ × Option ℚ))) :
    get_temp now max_ts_diff results =
      medianPairs (results.filterMap (acceptSpec now (max_ts_diff.getD 60))) := by
  unfold get_temp
  rw [getTempLoop_eq]
  rw [List.nil_append]

/-- The fuel `target_inside_temperature` hands to `preLoop` always suffices:
when the loop returns, its guard `iteration_ts > reversed_forecast[0].ts` is
false, exactly as at the exit of the source's while loop. -/
theorem preLoop_exit (rate aMin oAfter rf0ts : ℚ) :
    ∀ (fuel : ℕ) (inside it : ℚ), Nat.ceil ((it - rf0ts) / 3600) ≤ fuel →
      ¬ rf0ts < (preLoop rate aMin oAfter rf0ts fuel (inside, it)).2 := by
  intro fuel
  induction fuel with
  | zero =>
    intro inside it hf
    have h0 : ((it - rf0ts) / 3600 : ℚ) ≤ 0 := Nat.ceil_eq_zero.mp (Nat.le_zero.mp hf)
    have key : it - rf0ts = ((it - rf0ts) / 3600) * 3600 := by field_simp
    simp only [preLoop]
    nlinarith [mul_le_mul_of_nonneg_right h0 (by norm_num : (0:ℚ) ≤ 3600)]
  | succ n ih =>
    intro inside it hf
    by_cases hit : rf0ts < it
    · simp only [preLoop]
      rw [if_pos hit]
      apply ih
      have hceil : (it - rf0ts) / 3600 ≤ ((n : ℚ) + 1) := by
        have := Nat.ceil_le.mp hf
        push_cast at this
        exact this
      have hnew : (it - 3600 * min 1 ((it - rf0ts) / 3600) - rf0ts) / 3600
          = (it - rf0ts) / 3600 - min 1 ((it - rf0ts) / 3600) := by
        field_simp
        ring
      rw [hnew]
      apply Nat.ceil_le.mpr
      rcases le_total ((it - rf0ts) / 3600) 1 with h1 | h1
      · rw [min_eq_right h1]
        simp
      · rw [min_eq_left h1]
        linarith
    · simp only [preLoop]
      rw [if_neg hit]
      exact hit

/-- Claim C3: whatever the outside reading, floors, forecast and buffer
configuration, a value returned by `target_inside_temperature` is at least the
caller-supplied `minimum_inside_temp` floor. -/
theorem claim_C3_target_floor (now rate : ℚ) (outside_temp_ts : TempTs)
    (allowed_min minimum_inside_temp : ℚ) (forecast : Option Forecast)
    (ctb : ℚ ⊕ (ℚ → ℚ)) (r : ℚ)
    (h : target_inside_temperature now rate outside_temp_ts allowed_min minimum_inside_temp
      forecast ctb = .ok r) :
    minimum_inside_temp ≤ r := by
  unfold target_inside_temperature at h
  cases hres : cooling_time_buffer_resolved ctb outside_temp_ts.temp forecast with
  | error e =>
    rw [hres] at h
    simp [Except.map] at h
  | ok b =>
    rw [hres] at h
    simp only [Except.map, Except.ok.injEq] at h
    rw [← h]
    exact le_max_right _ _

/-- Witness for C3: a trivial single-point run whose simulated temperature 5
is lifted to the floor 10. -/
theorem claim_C3_target_floor_witness :
    target_inside_temperature 0 0 ⟨0, 0⟩ 5 10 none (.inl 0) = .ok 10 ∧ (10:ℚ) ≤ 10 := by
  have heval : target_inside_temperature 0 0 ⟨0, 0⟩ 5 10 none (.inl 0) = .ok 10 := by
    norm_num [target_inside_temperature, cooling_time_buffer_resolved, ctbLoop, ctbStep,
      forecastMeanRaises, forecast_mean_temperature, listMean, preLoop, forecastLoop,
      appendIfLater, Except.map]
  exact ⟨heval, claim_C3_target_floor 0 0 ⟨0, 0⟩ 5 10 none (.inl 0) 10 heval⟩

/-- Claim C1 (failing input): with a valid outside reading below 1°C, a
previously sent command, and the dew-point reading absent, `Auto.process`
evaluates `estimate_temperature_with_rh(dew_point.temp, 0.7)` on `None` in its
freeze-protection branch and aborts the cycle with a `TypeError` instead of
returning a command. -/
theorem claim_C1_process_aborts :
    Auto.process sampleConfig sampleEnvNoDew sampleState 10 = .error .typeError := rfl

/-- Counterexample for C6 as stated: on a cache miss, a wrapped function
yielding `(None, timestamp)` — a pair whose *value* component is absent — is
stored anyway, because the source only tests `result` truthiness (a pair is
always truthy) and `result[1] is not None`; the claim predicted no entry would
be stored. -/
theorem claim_C6_counterexample :
    (cachingWrap none none 0 none (some (none, some 0))).1
        = some ⟨3600, 7200, (none, some 0)⟩
    ∧ (cachingWrap none none 0 none (some (none, some 0))).1 ≠ none := by
  refine ⟨by norm_num [cachingWrap, cacheGet], by simp [cachingWrap, cacheGet]⟩

/-- Claim C6 (amended): on a cache miss the wrapper stores a new entry
(ok expiry = timestamp + per-name ok_ttl, default 60 minutes; failed expiry =
timestamp + per-name failed_ttl, default 120 minutes) exactly when the wrapped
function yields a pair whose timestamp component is present — the value
component is not checked; when the function raises or yields a pair without a
timestamp, no entry is stored and the wrapper returns the cached payload from
the failed channel, or nothing if that channel is empty or expired. -/
theorem claim_C6_cache_store (ifOk ifFailed : Option ℚ) (now : ℚ)
    (entry : Option CacheEntry) (fres : Option (Option ℚ × Option ℚ))
    (hmiss : cacheGet now entry .ok = none) :
    (∀ v ts, fres = some (v, some ts) →
      cachingWrap ifOk ifFailed now entry fres =
        (some (CacheEntry.mk (ts + 60 * ifOk.getD 60) (ts + 60 * ifFailed.getD 120)
          (v, some ts)), some (v, some ts)))
    ∧ ((fres = none ∨ ∃ v, fres = some (v, none)) →
      cachingWrap ifOk ifFailed now entry fres = (entry, cacheGet now entry .failed)) := by
  constructor
  · intro v ts hf
    subst hf
    unfold cachingWrap
    rw [hmiss]
  · rintro (hf | ⟨v, hf⟩) <;> subst hf <;> unfold cachingWrap <;> rw [hmiss]

/-- Witness for C6 (amended) on an empty cache: a `(7, 100)` result is stored
with the default 60/120-minute expiries. -/
theorem claim_C6_cache_store_witness :
    cachingWrap none none 0 none (some (some 7, some 100)) =
      (some ⟨3700, 7300, (some 7, some 100)⟩, some (some 7, some 100)) := by
  have h := (claim_C6_cache_store none none 0 none (some (some 7, some 100)) rfl).1
    (some 7) 100 rfl
  rw [h]
  norm_num

/-- Claim C9: when a previously sent command exists, `Auto.run` sends the IR
signal exactly when the new command differs from the last sent one, except
that a transition into `off` is suppressed unless more than 3 hours of
continuous heating have elapsed; when suppressed, the last command is left
unchanged. -/
theorem claim_C9_command_gating (last next : Command) (now heating_start : ℚ) :
    ((runDecision (some last) next now heating_start).1 = true ↔
      (next ≠ last ∧ (next ≠ .off ∨ now - heating_start > 60 * 60 * 3)))
    ∧ ((runDecision (some last) next now heating_start).1 = false →
      (runDecision (some last) next now heating_start).2.1 = some last) := by
  simp only [runDecision]
  by_cases hC : some next ≠ some last ∧
      (next ≠ Command.off ∨ (next = Command.off ∧ now - heating_start > 60 * 60 * 3))
  · rw [if_pos (Or.inr hC)]
    refine ⟨⟨fun _ => ?_, fun _ => rfl⟩, fun hfalse1 => by simp at hfalse1⟩
    obtain ⟨h2, h3⟩ := hC
    refine ⟨by simpa using h2, ?_⟩
    rcases h3 with h3 | ⟨_, h3b⟩
    · exact Or.inl h3
    · exact Or.inr h3b
  · rw [if_neg (by
      rintro (habs | habs)
      · exact Option.noConfusion habs
      · exact hC habs)]
    refine ⟨⟨fun h1 => by simp at h1, fun hcl => ?_⟩, fun _ => rfl⟩
    exfalso
    apply hC
    obtain ⟨h2, h3⟩ := hcl
    refine ⟨by simpa using h2, ?_⟩
    rcases h3 with h3 | hgt
    · exact Or.inl h3
    · by_cases hoff : next = .off
      · exact Or.inr ⟨hoff, hgt⟩
      · exact Or.inl hoff

/-- Witness for C9: switching from `heat8` to `off` after 20000 s (> 3 h) of
heating does send the signal. -/
theorem claim_C9_command_gating_witness :
    (runDecision (some .heat8) .off 20000 0).1 = true :=
  (claim_C9_command_gating .heat8 .off 20000 0).1.mpr
    ⟨by decide, Or.inr (by norm_num)⟩

/-- `bind` on `Except` yields `ok` exactly through an `ok` intermediate. -/
theorem except_bind_eq_ok {α β : Type} (x : Except PyError α) (g : α → Except PyError β)
    (b : β) : x.bind g = .ok b ↔ ∃ a, x = .ok a ∧ g a = .ok b := by
  cases x <;> simp [Except.bind]

/-- `map` on `Except` yields `ok` exactly from an `ok` argument. -/
theorem except_map_eq_ok {α β : Type} (f : α → β) (x : Except PyError α) (b : β) :
    x.map f = .ok b ↔ ∃ a, x = .ok a ∧ b = f a := by
  cases x <;> simp [Except.map, eq_comm]

/-- The post-target stage reports exactly the target it was given. -/
theorem processAfterTarget_target (env : ProcessEnv) (st : AutoState) (t1 : ℚ)
    (out : ProcessOut) (h : processAfterTarget env st t1 = .ok out) : out.target = t1 := by
  unfold processAfterTarget at h
  rw [except_map_eq_ok] at h
  obtain ⟨cmd, hcmd, hout⟩ := h
  rw [hout]

/-- Claim C10: whenever a dew-point reading is available, the target used by
the rest of the cycle is `max(simulator target,
estimate_temperature_with_rh(dew_point, 0.8))`, so it can exceed the
simulator's output; with no dew-point reading the simulator's output is used
unchanged. -/
theorem claim_C10_dew_point_target (cfg : AutoConfig) (env : ProcessEnv) (st : AutoState)
    (minimum_inside_temp t0 : ℚ) (out : ProcessOut)
    (ht : processTarget cfg env minimum_inside_temp = .ok t0)
    (hrun : Auto.process cfg env st minimum_inside_temp = .ok out) :
    (∀ dp e80, env.dewPoint = some dp →
      estimate_temperature_with_rh dp env.rhLog80 = .ok e80 → out.target = max t0 e80)
    ∧ (env.dewPoint = none → out.target = t0) := by
  unfold Auto.process at hrun
  rw [except_bind_eq_ok] at hrun
  obtain ⟨t1, ht1, hafter⟩ := hrun
  have htar := processAfterTarget_target env st t1 out hafter
  unfold processTargetWithDew at ht1
  rw [ht] at ht1
  constructor
  · intro dp e80 hdp hest
    rw [hdp] at ht1
    simp only [Except.bind] at ht1
    rw [hest] at ht1
    simp only [Except.map, Except.ok.injEq] at ht1
    rw [htar, ← ht1]
  · intro hdp
    rw [hdp] at ht1
    simp only [Except.bind, Except.ok.injEq] at ht1
    rw [htar, ← ht1]

/-- Witness for C10: the `sampleEnvDew` cycle — dew point 0°C with
`rh_log = -1` gives the 80%-RH bound `6944/475 ≈ 14.62`, above the simulator
target 10, and the cycle's target is their max. -/
theorem claim_C10_dew_point_target_witness : sampleOut.target = max 10 (6944/475) := by
  have hT : processTarget sampleConfig sampleEnvDew 10 = .ok 10 := by
    norm_num [processTarget, target_inside_temperature, cooling_time_buffer_resolved,
      ctbLoop, ctbStep, forecastMeanRaises, forecast_mean_temperature, processForecast,
      processOutsideForTarget, processOutsideTempTs, processMeanForecast, get_outside_model,
      listMean, preLoop, forecastLoop, appendIfLater, Except.map, sampleConfig, sampleEnvDew]
  have hE : estimate_temperature_with_rh 0 (-1) = .ok (6944/475) := by
    norm_num [estimate_temperature_with_rh]
  have hR : Auto.process sampleConfig sampleEnvDew sampleState 10 = .ok sampleOut := by
    norm_num [Auto.process, processTargetWithDew, processTarget, target_inside_temperature,
      cooling_time_buffer_resolved, ctbLoop, ctbStep, forecastMeanRaises,
      forecast_mean_temperature, processForecast, processOutsideForTarget,
      processOutsideTempTs, processValidOutside, processMeanForecast, get_outside_model,
      listMean, preLoop, forecastLoop, appendIfLater, estimate_temperature_with_rh,
      processAfterTarget, get_error, hysteresis, Controller.update, Controller.recordError,
      Controller.updatePastErrors, Controller.pastErrorSlopePerSecond,
      Controller.accumIntegral, Controller.clampIntegral, clampQ, get_next_command,
      commandFromController, temp_control_without_inside_temp, cmdMax, log_status,
      Except.bind, Except.map, sampleConfig, sampleEnvDew, sampleState, sampleController,
      sampleOut, PREDEFINED_OUTSIDE_TEMP, Command.rank, String.intercalate,
      String.intercalate.go]
  exact (claim_C10_dew_point_target sampleConfig sampleEnvDew sampleState 10 10 sampleOut
    hT hR).1 0 (6944/475) rfl hE

end IlpCommander
